import Mathlib

/-!
Shallow embedding of the quota-and-media-storage core of the
GeminiImageVideoGen backend, together with proofs of the behavioural
properties its specification states.

The embedding follows the Python sources:
* `backend/utils/quota_manager.py`  (quota engine),
* `backend/utils/media_storage.py`  (media store),
* `backend/routers/media.py`        (media endpoints: access control,
                                     listing/pagination, delete),
* `backend/utils/user_manager.py`   (admin delegation checks),
* `backend/utils/video_queue.py`    (video job tracker).

The SQLite tables are modelled as lists of rows inside explicit state
records; `fetchone` on a keyed SELECT becomes `List.find?`, `UPDATE ...
WHERE` becomes a `List.map` guarded on the key, `DELETE ... WHERE` a
`List.filter`, and `INSERT` an append.  Wall-clock time is passed
explicitly as a natural number of minutes since the epoch, so that the
midnight arithmetic of `_calculate_reset_time` stays executable.
Generated UUIDs become freshness counters (`nextId`) or explicit
parameters.
-/

namespace GeminiGen

/-- Python exceptions the embedded code can raise: `AttributeError` from
calling a missing method, and `sqlite3.IntegrityError` from an INSERT
that violates a schema CHECK constraint. -/
inductive PyError where
  | attributeError : PyError
  | integrityError : PyError
  deriving Repr, DecidableEq

deriving instance DecidableEq for Except

/-! ## Quota engine (`backend/utils/quota_manager.py`) -/

/-- One row of the `user_quotas` table.  The `id` column (a UUID string in
the source) is modelled as a natural drawn from a freshness counter. -/
structure Quota where
  qid : Nat
  user_id : String
  generation_type : String
  quota_type : String
  quota_limit : Option Int
  quota_used : Nat
  quota_reset_at : Option Nat
  deriving Repr, DecidableEq

/-- The `user_quotas` table plus the UUID source. -/
structure QuotaDB where
  rows : List Quota
  nextId : Nat
  deriving Repr, DecidableEq

/-- Minutes per day; timestamps are minutes since the epoch, with day 0
starting on a Monday so that `weekday = (day % 7)`. -/
def minutesPerDay : Nat := 1440

/-- The `QuotaManager._calculate_reset_time`: next midnight for `daily`,
next Monday midnight for `weekly`, `None` for anything else. -/
def calcResetTime (quota_type : String) (now : Nat) : Option Nat :=
  if quota_type = "daily" then
    some ((now / minutesPerDay + 1) * minutesPerDay)
  else if quota_type = "weekly" then
    let weekday := (now / minutesPerDay) % 7
    let d0 := (7 - weekday) % 7
    let d := if d0 = 0 then 7 else d0
    some ((now / minutesPerDay + d) * minutesPerDay)
  else
    none

/-- The `QuotaManager.get_quota`: `SELECT * FROM user_quotas WHERE user_id = ?
AND generation_type = ?` followed by `fetchone`. -/
def getQuota (db : QuotaDB) (uid cat : String) : Option Quota :=
  db.rows.find? (fun q => q.user_id == uid && q.generation_type == cat)

/-- The `QuotaManager.create_quota`: INSERT a fresh row with `quota_used = 0`
and the reset time computed from the quota type.  This is the effect of a
successful INSERT; the schema CHECK constraints that can make the INSERT
raise instead are modelled in `createQuotaE` below. -/
def createQuota (db : QuotaDB) (uid cat qtype : String) (qlimit : Option Int)
    (now : Nat) : QuotaDB :=
  { rows := db.rows ++
      [{ qid := db.nextId, user_id := uid, generation_type := cat,
         quota_type := qtype, quota_limit := qlimit, quota_used := 0,
         quota_reset_at := calcResetTime qtype now }],
    nextId := db.nextId + 1 }

/-- The CHECK constraint on `generation_type` in the final `user_quotas`
schema (migration 7 in `backend/utils/database.py`): only `image`,
`video` and `text` rows may be inserted. -/
def generationTypeAllowed (cat : String) : Bool :=
  cat == "image" || cat == "video" || cat == "text"

/-- The CHECK constraint on `quota_type` in the final `user_quotas`
schema: `daily`, `weekly`, `limited` or `unlimited`. -/
def quotaTypeAllowed (qtype : String) : Bool :=
  qtype == "daily" || qtype == "weekly" || qtype == "limited" ||
    qtype == "unlimited"

/-- The `user_quotas` INSERT of `create_quota` as executed against the
schema: a row violating either CHECK constraint raises
`sqlite3.IntegrityError` and leaves the table unchanged. -/
def createQuotaE (db : QuotaDB) (uid cat qtype : String) (qlimit : Option Int)
    (now : Nat) : Except PyError QuotaDB :=
  if generationTypeAllowed cat && quotaTypeAllowed qtype then
    Except.ok (createQuota db uid cat qtype qlimit now)
  else Except.error PyError.integrityError

/-- The `QuotaManager._reset_quota`: zero the counter of the row with the given
id and recompute its reset time from its quota type. -/
def resetQuotaRow (db : QuotaDB) (qid : Nat) (now : Nat) : QuotaDB :=
  { db with rows := db.rows.map (fun q =>
      if q.qid == qid then
        { q with quota_used := 0,
                 quota_reset_at := calcResetTime q.quota_type now }
      else q) }

/-- The error message built by `QuotaManager.check_quota` when the quota is
exhausted. -/
def quotaExceededMsg (cat : String) (used : Nat) (lim : Int)
    (resetAt : Option Nat) : String :=
  let resetInfo := match resetAt with
    | some t => " Resets at " ++ toString t
    | none => ""
  "Quota exceeded for " ++ cat ++ ". Used: " ++ toString used ++ "/" ++
    toString lim ++ "." ++ resetInfo

/-- Result of `QuotaManager.check_quota`: the (possibly reset-on-read)
database together with the `(has_quota, error_message)` pair. -/
structure CheckResult where
  db : QuotaDB
  allowed : Bool
  reason : Option String
  deriving Repr, DecidableEq

/-- The `QuotaManager.check_quota`.  A missing row is treated as unlimited; an
`unlimited` row always passes; a passed reset timestamp triggers
`_reset_quota` and a re-read; a `NULL` limit passes; otherwise the row
passes exactly when `quota_used < quota_limit`. -/
def checkQuota (db : QuotaDB) (uid cat : String) (now : Nat) : CheckResult :=
  match getQuota db uid cat with
  | none => ⟨db, true, none⟩
  | some quota =>
    if quota.quota_type == "unlimited" then ⟨db, true, none⟩
    else
      let st :=
        match quota.quota_reset_at with
        | some t =>
          if t ≤ now then
            let db2 := resetQuotaRow db quota.qid now
            (db2, (getQuota db2 uid cat).getD quota)
          else (db, quota)
        | none => (db, quota)
      match st.2.quota_limit with
      | none => ⟨st.1, true, none⟩
      | some lim =>
        if lim ≤ (st.2.quota_used : Int) then
          ⟨st.1, false,
           some (quotaExceededMsg cat st.2.quota_used lim st.2.quota_reset_at)⟩
        else ⟨st.1, true, none⟩

/-- The `QuotaManager.DEFAULT_QUOTAS` together with the `.get(generation_type,
default)` fallback used by `increment_quota`. -/
def defaultQuota (cat : String) : String × Option Int :=
  if cat = "image" then ("daily", some 50)
  else if cat = "video" then ("daily", some 10)
  else if cat = "edit" then ("daily", some 30)
  else ("unlimited", none)

/-- The `QuotaManager.increment_quota`: provision the default quota when the
row is missing, then bump `quota_used` unless the quota type is
`unlimited`.  This is the non-raising behaviour (a row already present,
or a provisioning INSERT that passes the schema CHECKs);
`incrementQuotaE` below threads the `IntegrityError` the INSERT raises
for categories outside the schema's allowed set. -/
def incrementQuota (db : QuotaDB) (uid cat : String) (now : Nat) : QuotaDB :=
  let st :=
    match getQuota db uid cat with
    | some q => (db, some q)
    | none =>
      let d := defaultQuota cat
      let db2 := createQuota db uid cat d.1 d.2 now
      (db2, getQuota db2 uid cat)
  match st.2 with
  | some q =>
    if q.quota_type == "unlimited" then st.1
    else
      { st.1 with rows := st.1.rows.map (fun r =>
          if r.qid == q.qid then { r with quota_used := r.quota_used + 1 }
          else r) }
  | none => st.1

/-- The `increment_quota` iterated `n` times. -/
def incrementIter (db : QuotaDB) (uid cat : String) (now : Nat) : Nat → QuotaDB
  | 0 => db
  | n + 1 => incrementQuota (incrementIter db uid cat now n) uid cat now

/-- The `QuotaManager.increment_quota` as executed against the schema: the
lazy default-provisioning INSERT is subject to the CHECK constraints, and
an `IntegrityError` raised there propagates to the caller with the table
unchanged; everything else is as in `incrementQuota`. -/
def incrementQuotaE (db : QuotaDB) (uid cat : String) (now : Nat) :
    Except PyError QuotaDB :=
  match
    (match getQuota db uid cat with
     | some q => Except.ok (db, some q)
     | none =>
       let d := defaultQuota cat
       match createQuotaE db uid cat d.1 d.2 now with
       | Except.error e => Except.error e
       | Except.ok db2 => Except.ok (db2, getQuota db2 uid cat)) with
  | Except.error e => Except.error e
  | Except.ok st =>
    match st.2 with
    | some q =>
      if q.quota_type == "unlimited" then Except.ok st.1
      else
        Except.ok { st.1 with rows := st.1.rows.map (fun r =>
          if r.qid == q.qid then { r with quota_used := r.quota_used + 1 }
          else r) }
    | none => Except.ok st.1

/-- Result of `QuotaManager.update_quota`: the database and the returned
row (None when nothing was created). -/
structure UpdateResult where
  db : QuotaDB
  quota : Option Quota
  deriving Repr, DecidableEq

/-- Python truthiness of an optional string (`None` and `""` are falsy). -/
def strTruthy : Option String → Bool
  | none => false
  | some s => !(s == "")

/-- The `QuotaManager.update_quota`.  When the row is missing it is created
only if a (truthy) quota type and a limit were both supplied.  Otherwise
the supplied fields are applied to the row; supplying a quota type also
recomputes the reset time; no validation of the limit is performed. -/
def updateQuota (db : QuotaDB) (uid cat : String) (qtype : Option String)
    (qlimit : Option Int) (now : Nat) : UpdateResult :=
  match getQuota db uid cat with
  | none =>
    if strTruthy qtype && qlimit.isSome then
      let db2 := createQuota db uid cat (qtype.getD "") qlimit now
      ⟨db2, getQuota db2 uid cat⟩
    else ⟨db, none⟩
  | some quota =>
    if qtype.isNone && qlimit.isNone then ⟨db, some quota⟩
    else
      let apply1 := fun (q : Quota) =>
        match qtype with
        | some t => { q with quota_type := t,
                             quota_reset_at := calcResetTime t now }
        | none => q
      let apply2 := fun (q : Quota) =>
        match qlimit with
        | some l => { q with quota_limit := some l }
        | none => q
      let db2 := { db with rows := db.rows.map (fun r =>
          if r.qid == quota.qid then apply2 (apply1 r) else r) }
      ⟨db2, getQuota db2 uid cat⟩

/-- The `QuotaManager.reset_user_quota`: manual admin reset. -/
def resetUserQuota (db : QuotaDB) (uid cat : String) (now : Nat) : QuotaDB :=
  match getQuota db uid cat with
  | some q => resetQuotaRow db q.qid now
  | none => db

/-! ## Media store (`backend/utils/media_storage.py`)

Free-form `details` blobs are JSON dictionaries in the source; they are
modelled as association lists of strings.  `json.dumps` is injective on
such dictionaries and `json.loads` is its inverse, so the serialized
column is modelled by the dictionary value itself; what remains visible
is the truthiness test `if media_metadata.get("details")` that turns an
empty (falsy) dictionary into a stored `NULL`. -/

/-- A JSON dictionary payload (string keys, string values). -/
abbrev JsonDict := List (String × String)

/-- One row of the `media` table.  The UUID id is a freshness-counter
natural; `created_at` is the explicit clock value at save time. -/
structure MediaMeta where
  mid : Nat
  mtype : String
  filename : String
  prompt : String
  model : String
  user_id : String
  created_at : Nat
  file_size : Nat
  mime_type : String
  details : Option JsonDict
  ip_address : Option String
  deriving Repr, DecidableEq

/-- The media store state: the `media` table, the on-disk files (path to
byte string), and the UUID source. -/
structure MediaStore where
  rows : List MediaMeta
  files : List (String × List Nat)
  nextId : Nat
  deriving Repr, DecidableEq

/-- The `MediaStorage._get_extension`: MIME type to file extension, with a
per-family fallback. -/
def extFromMime (mime : String) : String :=
  if mime = "video/mp4" then "mp4"
  else if mime = "video/webm" then "webm"
  else if mime = "image/png" then "png"
  else if mime = "image/jpeg" then "jpg"
  else if mime = "image/jpg" then "jpg"
  else if mime = "image/webp" then "webp"
  else if mime = "image/gif" then "gif"
  else if mime.startsWith "video/" then "mp4"
  else "png"

/-- Default MIME type used by `save_media` when none is supplied:
`video/mp4` for videos, `image/png` otherwise. -/
def defaultMime (mtype : String) : String :=
  if mtype = "video" then "video/mp4" else "image/png"

/-- The on-disk path of a media file: `VIDEOS_DIR` for type `video`,
`IMAGES_DIR` for everything else. -/
def mediaPath (mtype filename : String) : String :=
  (if mtype = "video" then "videos/" else "images/") ++ filename

/-- Look a path up in the file system (first write wins, matching the
overwrite-on-write model below). -/
def lookupFile (fs : List (String × List Nat)) (path : String) :
    Option (List Nat) :=
  (fs.find? (fun p => p.1 == path)).map (fun p => p.2)

/-- The caller-supplied metadata dictionary of `save_media`; every field
is optional, mirroring `metadata.get(...)`. -/
structure SaveMeta where
  prompt : Option String
  model : Option String
  userId : Option String
  mimeType : Option String
  details : Option JsonDict
  ipAddress : Option String
  deriving Repr, DecidableEq

/-- The `MediaStorage.save_media`.  The base64 payload and its decoder are
explicit parameters; the decoded bytes are written to
`{videos|images}/{id}.{ext}` and the metadata row is inserted, with the
`details` column left `NULL` when the supplied dictionary is falsy.
Returns the new state and the generated media id.  (The `media` table's
CHECK admits types `image` and `video`; every use below stays within
it, and `save_media` itself calls no raising conversion.) -/
def saveMedia (decode : String → List Nat) (st : MediaStore) (mtype : String)
    (base64Data : String) (md : SaveMeta) (now : Nat) : MediaStore × Nat :=
  let mid := st.nextId
  let mime := md.mimeType.getD (defaultMime mtype)
  let filename := toString mid ++ "." ++ extFromMime mime
  let fileBytes := decode base64Data
  let path := mediaPath mtype filename
  let storedDetails : Option JsonDict :=
    match md.details with
    | some d => if d = [] then none else some d
    | none => none
  let row : MediaMeta :=
    { mid := mid, mtype := mtype, filename := filename,
      prompt := md.prompt.getD "", model := md.model.getD "",
      user_id := md.userId.getD "anonymous", created_at := now,
      file_size := fileBytes.length, mime_type := mime,
      details := storedDetails, ip_address := md.ipAddress }
  ({ rows := st.rows ++ [row], files := (path, fileBytes) :: st.files,
     nextId := st.nextId + 1 }, mid)

/-- The `MediaStorage._row_to_metadata`.  The dictionary it builds ends
with `"ipAddress": row.get("ip_address")` (media_storage.py line 51), but
the rows the store's connections produce are `sqlite3.Row` objects
(`row_factory` is set at database.py line 402) and `sqlite3.Row` has no
`.get` method: the call raises `AttributeError` on every row, before any
result reaches the caller.  (Had the call succeeded, the conversion would
return the row itself: `row["prompt"] or ""` and `row["model"] or ""` are
the identity on strings and JSON parsing recovers the stored
dictionary.) -/
def rowToMetadata : MediaMeta → Except PyError MediaMeta :=
  fun _ => Except.error PyError.attributeError

/-- The `MediaStorage.get_media`: metadata lookup (`None` when absent),
then the `_row_to_metadata` conversion — which raises — and then the
file-existence check and file read, which the raise makes unreachable on
every existing row. -/
def getMedia (st : MediaStore) (mid : Nat) :
    Except PyError (Option (List Nat × MediaMeta)) :=
  match st.rows.find? (fun r => r.mid == mid) with
  | none => Except.ok none
  | some row =>
    match rowToMetadata row with
    | Except.error e => Except.error e
    | Except.ok meta =>
      match lookupFile st.files (mediaPath meta.mtype meta.filename) with
      | none => Except.ok none
      | some fileBytes => Except.ok (some (fileBytes, meta))

/-- The `MediaStorage.delete_media`: row lookup (`False` when absent), then
the raising `_row_to_metadata` conversion, then the unlink-then-DELETE
that the raise makes unreachable on every existing row. -/
def deleteMedia (st : MediaStore) (mid : Nat) :
    Except PyError (MediaStore × Bool) :=
  match st.rows.find? (fun r => r.mid == mid) with
  | none => Except.ok (st, false)
  | some row =>
    match rowToMetadata row with
    | Except.error e => Except.error e
    | Except.ok meta =>
      let path := mediaPath meta.mtype meta.filename
      Except.ok ({ st with
          rows := st.rows.filter (fun r => !(r.mid == mid)),
          files := st.files.filter (fun p => !(p.1 == path)) }, true)

/-! ## Delegation and the media endpoints (`backend/routers/media.py`,
`backend/utils/user_manager.py`) -/

/-- The fields of a `users` row that the media endpoints consult. -/
structure DbUser where
  id : String
  is_admin : Bool
  deriving Repr, DecidableEq

/-- The `user_admins` table: `(admin_id, user_id)` pairs. -/
abbrev AdminRel := List (String × String)

/-- The `UserManager.can_admin_manage_user`: membership in `user_admins`. -/
def canAdminManageUser (rel : AdminRel) (adminId userId : String) : Bool :=
  rel.any (fun p => p.1 == adminId && p.2 == userId)

/-- The ids of the users managed by an admin, as used by `list_media`:
`get_admin_users` plus the admin itself (appended by the router). -/
def adminManagedIds (rel : AdminRel) (adminId : String) : List String :=
  (rel.filter (fun p => p.1 == adminId)).map (fun p => p.2) ++ [adminId]

/-- The ownership check shared verbatim by the `get_media`,
`get_media_thumbnail` and `delete_media` endpoints: non-admins may only
touch their own media; admins may touch their own media and media of
users they manage. -/
def mediaAccessAllowed (rel : AdminRel) (caller : DbUser)
    (ownerId : String) : Bool :=
  if !caller.is_admin then ownerId == caller.id
  else if ownerId == caller.id then true
  else canAdminManageUser rel caller.id ownerId

/-- The tagged outcome an endpoint reports: HTTP 200 / 404 / 403, plus
the 500 the handler's final `except Exception` clause turns an escaped
exception into. -/
inductive ApiResult (α : Type) where
  | ok : α → ApiResult α
  | notFound : ApiResult α
  | permissionDenied : ApiResult α
  | internalError : ApiResult α
  deriving Repr, DecidableEq

/-- The `GET /api/media/{media_id}` endpoint: the storage call first (an
exception there is caught by the handler's `except Exception` and
surfaces as HTTP 500), 404 when the result is `None`, then the ownership
check (403 on failure). -/
def routerGetMedia (st : MediaStore) (rel : AdminRel) (caller : DbUser)
    (mid : Nat) : ApiResult (List Nat × MediaMeta) :=
  match getMedia st mid with
  | Except.error _ => ApiResult.internalError
  | Except.ok none => ApiResult.notFound
  | Except.ok (some result) =>
    if mediaAccessAllowed rel caller result.2.user_id then ApiResult.ok result
    else ApiResult.permissionDenied

/-- The `DELETE /api/media/{media_id}` endpoint: ownership lookup via
`get_media` (exceptions surface as HTTP 500, `None` as 404), the
ownership check (403), the storage delete (exceptions again as 500, 404
when it reports nothing deleted), and the thumbnail-cache cleanup, which
touches no modelled state. -/
def routerDeleteMedia (st : MediaStore) (rel : AdminRel) (caller : DbUser)
    (mid : Nat) : MediaStore × ApiResult Nat :=
  match getMedia st mid with
  | Except.error _ => (st, ApiResult.internalError)
  | Except.ok none => (st, ApiResult.notFound)
  | Except.ok (some result) =>
    if mediaAccessAllowed rel caller result.2.user_id then
      match deleteMedia st mid with
      | Except.error _ => (st, ApiResult.internalError)
      | Except.ok r =>
        if r.2 then (r.1, ApiResult.ok mid) else (r.1, ApiResult.notFound)
    else (st, ApiResult.permissionDenied)

/-! ## Listing and pagination (`list_media` in `backend/routers/media.py`)

The admin branch of `list_media` runs `SELECT ... FROM media WHERE
user_id IN (scope) [AND type = ?] ORDER BY created_at DESC LIMIT ?
OFFSET ?` plus a matching `COUNT(*)`; the per-item enrichment (owner
email, URLs) carries no additional state and is not modelled.  The
regular-user branch calls `count_user_media` and a paginated
`list_user_media(user_id, media_type, limit, offset)` on the storage
object; the repository's `media_storage.py` defines neither, so that
callee is modelled from the spec below. -/

/-- The SQL `AND type = ?` filter, absent when no type was supplied. -/
def typeMatches (t : Option String) (r : MediaMeta) : Bool :=
  match t with
  | none => true
  | some ty => r.mtype == ty

/-- The `WHERE user_id IN (scope) [AND type = ?]` over the `media` table. -/
def scopedMedia (scope : List String) (t : Option String)
    (rows : List MediaMeta) : List MediaMeta :=
  rows.filter (fun r => scope.contains r.user_id && typeMatches t r)

/-- The `ORDER BY created_at DESC`. -/
def sortByCreatedDesc (rows : List MediaMeta) : List MediaMeta :=
  rows.insertionSort (fun a b => b.created_at ≤ a.created_at)

/-- The admin branch of `list_media`: scope = managed users plus self,
count on the unsliced filter, then sort/offset/limit. -/
def adminListMedia (rows : List MediaMeta) (rel : AdminRel) (adminId : String)
    (t : Option String) (page limit : Nat) : List MediaMeta × Nat :=
  let scope := adminManagedIds rel adminId
  let filtered := scopedMedia scope t rows
  (((sortByCreatedDesc filtered).drop ((page - 1) * limit)).take limit,
   filtered.length)

/-- Modelled from the spec: the regular-user branch of `list_media` calls
`storage.count_user_media(user_id, media_type)` and
`storage.list_user_media(user_id, media_type, limit, offset)`, neither of
which exists in the repository's `media_storage.py` (its
`list_user_media` takes no pagination arguments).  Per the spec, `list`
is "ownership-scoped; ... regular users are restricted to exactly their
own id" and "must return total count independent of page size", with
items ordered by recency — the same query pattern as the admin branch
with the scope collapsed to the caller's own id. -/
def listUserMediaPaged (rows : List MediaMeta) (uid : String)
    (t : Option String) (limit offset : Nat) : List MediaMeta × Nat :=
  let filtered := scopedMedia [uid] t rows
  (((sortByCreatedDesc filtered).drop offset).take limit, filtered.length)

/-- The `GET /api/media/list`: dispatch on `db_user.is_admin`, with
`offset = (page - 1) * limit`.  Returns (page of items, total count). -/
def listMediaPage (rows : List MediaMeta) (rel : AdminRel) (caller : DbUser)
    (t : Option String) (page limit : Nat) : List MediaMeta × Nat :=
  if caller.is_admin then adminListMedia rows rel caller.id t page limit
  else listUserMediaPaged rows caller.id t limit ((page - 1) * limit)

/-- The owner scope a caller sees in `list_media`. -/
def listScope (rel : AdminRel) (caller : DbUser) : List String :=
  if caller.is_admin then adminManagedIds rel caller.id else [caller.id]

/-! ## Video job tracker (`backend/utils/video_queue.py`) -/

/-- One row of the `video_jobs` table. -/
structure VideoJob where
  id : String
  job_id : String
  operation_id : Option String
  user_id : String
  prompt : String
  model : String
  mode : String
  status : String
  progress : Int
  error : Option String
  details : Option JsonDict
  video_url : Option String
  video_data : Option String
  media_id : Option String
  created_at : Nat
  updated_at : Nat
  completed_at : Option Nat
  deriving Repr, DecidableEq

/-- The `VideoQueue._row_to_job`: the returned dictionary exposes
`row["job_id"] or row["id"]` as `jobId`; JSON parsing of `details`
recovers the stored dictionary. -/
def rowToJob (r : VideoJob) : VideoJob :=
  { r with job_id := if r.job_id = "" then r.id else r.job_id }

/-- The caller-supplied dictionary of `VideoQueue.create_job`. -/
structure CreateJobData where
  id : Option String
  jobId : Option String
  operationId : Option String
  userId : Option String
  prompt : Option String
  model : Option String
  mode : Option String
  status : Option String
  progress : Option Int
  error : Option String
  details : Option JsonDict
  videoUrl : Option String
  videoData : Option String
  mediaId : Option String
  deriving Repr, DecidableEq

/-- An all-`None` `create_job` payload, for building concrete inputs. -/
def emptyJobData : CreateJobData :=
  ⟨none, none, none, none, none, none, none, none, none, none, none, none,
   none, none⟩

/-- The `VideoQueue.create_job`.  The internal id is `data.get("id") or
data.get("jobId") or str(uuid.uuid4())` (truthiness, not presence); the
generated UUID is the explicit `freshId` parameter.  `INSERT OR REPLACE`
on the primary key replaces any row with the same internal id.  Returns
the new table and the stored job. -/
def createJob (jobs : List VideoJob) (data : CreateJobData) (freshId : String)
    (now : Nat) : List VideoJob × VideoJob :=
  let internalId :=
    if strTruthy data.id then data.id.getD ""
    else if strTruthy data.jobId then data.jobId.getD ""
    else freshId
  let externalJobId :=
    if strTruthy data.jobId then data.jobId.getD "" else internalId
  let operationId :=
    if !(strTruthy data.operationId) && strTruthy data.jobId &&
        !(data.jobId.getD "" == internalId) then data.jobId
    else data.operationId
  let row : VideoJob :=
    { id := internalId, job_id := externalJobId, operation_id := operationId,
      user_id := data.userId.getD "anonymous",
      prompt := data.prompt.getD "",
      model := data.model.getD "veo-3.1-fast-generate-preview",
      mode := data.mode.getD "text", status := data.status.getD "pending",
      progress := data.progress.getD 0, error := data.error,
      details := data.details, video_url := data.videoUrl,
      video_data := data.videoData, media_id := data.mediaId,
      created_at := now, updated_at := now, completed_at := none }
  (jobs.filter (fun r => !(r.id == internalId)) ++ [row], rowToJob row)

/-- The `VideoQueue._resolve_job_id`: `SELECT id FROM video_jobs WHERE id = ?
OR job_id = ? OR operation_id = ?`. -/
def resolveJobId (jobs : List VideoJob) (jobId : String) : Option String :=
  (jobs.find? (fun r =>
    r.id == jobId || r.job_id == jobId || r.operation_id == some jobId)).map
      (fun r => r.id)

/-- The `VideoQueue.get_job`: resolve the alias, then fetch by internal id. -/
def getJob (jobs : List VideoJob) (jobId : String) : Option VideoJob :=
  match resolveJobId jobs jobId with
  | none => none
  | some internalId =>
    (jobs.find? (fun r => r.id == internalId)).map rowToJob

/-- The partial-update dictionary of `VideoQueue.update_job`.  An outer
`some` means the key is present; for nullable columns the inner option is
the stored value. -/
structure JobUpdates where
  status : Option String
  prompt : Option String
  model : Option String
  mode : Option String
  error : Option (Option String)
  videoUrl : Option (Option String)
  videoData : Option (Option String)
  mediaId : Option (Option String)
  progress : Option Int
  details : Option (Option JsonDict)
  completedAt : Option (Option Nat)
  deriving Repr, DecidableEq

/-- An all-absent update dictionary. -/
def emptyJobUpdates : JobUpdates :=
  ⟨none, none, none, none, none, none, none, none, none, none, none⟩

/-- Whether the key loop of `update_job` produced no SET clause
(`completedAt` is not among the recognised keys, so it never counts). -/
def jobUpdatesEmpty (u : JobUpdates) : Bool :=
  u.status.isNone && u.prompt.isNone && u.model.isNone && u.mode.isNone &&
  u.error.isNone && u.videoUrl.isNone && u.videoData.isNone &&
  u.mediaId.isNone && u.progress.isNone && u.details.isNone

/-- Apply the SET clauses of `update_job` to one row: the recognised
fields, then `updated_at`, then the completion stamp — set to now when
the update carries `status = "completed"`, cleared when it carries an
explicit `completedAt: None`. -/
def applyJobUpdates (u : JobUpdates) (now : Nat) (r : VideoJob) : VideoJob :=
  let r := { r with
    status := u.status.getD r.status,
    prompt := u.prompt.getD r.prompt,
    model := u.model.getD r.model,
    mode := u.mode.getD r.mode,
    error := u.error.getD r.error,
    video_url := u.videoUrl.getD r.video_url,
    video_data := u.videoData.getD r.video_data,
    media_id := u.mediaId.getD r.media_id,
    progress := u.progress.getD r.progress,
    details := u.details.getD r.details,
    updated_at := now }
  if u.status == some "completed" then { r with completed_at := some now }
  else if u.completedAt == some none then { r with completed_at := none }
  else r

/-- The `VideoQueue.update_job`: resolve the alias (None when unknown); with
an empty SET list, return the job unchanged; otherwise apply the update
to the resolved row and re-read it. -/
def updateJob (jobs : List VideoJob) (jobId : String) (u : JobUpdates)
    (now : Nat) : List VideoJob × Option VideoJob :=
  match resolveJobId jobs jobId with
  | none => (jobs, none)
  | some internalId =>
    if jobUpdatesEmpty u then (jobs, getJob jobs internalId)
    else
      let jobs2 := jobs.map (fun r =>
        if r.id == internalId then applyJobUpdates u now r else r)
      (jobs2, (jobs2.find? (fun r => r.id == internalId)).map rowToJob)

/-- The `VideoQueue.list_jobs`: a user's jobs, most recent first. -/
def listJobs (jobs : List VideoJob) (uid : String) : List VideoJob :=
  ((jobs.filter (fun r => r.user_id == uid)).insertionSort
    (fun a b => b.created_at ≤ a.created_at)).map rowToJob

/-! ## Concrete states used to exercise the model -/

/-- A `limited/2` quota row with nothing used yet. -/
def exQuotaRow : Quota := ⟨0, "u", "image", "limited", some 2, 0, none⟩

/-- A quota table holding just `exQuotaRow`. -/
def exQuotaDB : QuotaDB := ⟨[exQuotaRow], 1⟩

/-- A `daily/5` quota row with 3 used and a pending reset. -/
def exDailyRow : Quota := ⟨0, "u", "image", "daily", some 5, 3, some 1440⟩

/-- A quota table holding just `exDailyRow`. -/
def exDailyDB : QuotaDB := ⟨[exDailyRow], 1⟩

/-- An empty quota table. -/
def exEmptyQuotaDB : QuotaDB := ⟨[], 0⟩

/-- A base64 decoder standing in for `base64.b64decode` on one input. -/
def exDecode : String → List Nat := fun _ => [7, 7, 7]

/-- An empty media store. -/
def emptyMediaStore : MediaStore := ⟨[], [], 0⟩

/-- Save metadata with every field supplied and truthy. -/
def exSaveMetaFull : SaveMeta :=
  ⟨some "p", some "m", some "u", some "image/png", some [("mode", "edit")],
   some "10.0.0.1"⟩

/-- A media row owned by user `x`. -/
def exMediaRowX : MediaMeta :=
  ⟨0, "image", "0.png", "p", "m", "x", 10, 3, "image/png", none, none⟩

/-- A media row owned by user `y`. -/
def exMediaRowY : MediaMeta :=
  ⟨1, "image", "1.png", "p", "m", "y", 11, 3, "image/png", none, none⟩

/-- A store holding one file for `x` and one for `y`. -/
def exStoreXY : MediaStore :=
  ⟨[exMediaRowX, exMediaRowY],
   [("images/0.png", [1, 2, 3]), ("images/1.png", [4, 5, 6])], 2⟩

/-- A store whose only row has no backing file (orphaned metadata). -/
def exOrphanStore : MediaStore := ⟨[exMediaRowX], [], 1⟩

/-- The delegation table: admin `a` manages user `x` (and nobody else). -/
def exRel : AdminRel := [("a", "x")]

/-- The admin `a`. -/
def exAdmin : DbUser := ⟨"a", true⟩

/-- The regular user `x`. -/
def exUserX : DbUser := ⟨"x", false⟩

/-- A `create_job` payload carrying only an external job id. -/
def exJobData : CreateJobData := { emptyJobData with jobId := some "op-123" }

/-- The row `create_job` inserts when the payload has no internal id and a
truthy external job id `jid`: the internal id and the external job id
both become `jid`, and `operation_id` stays as supplied. -/
def createdRow (data : CreateJobData) (jid : String) (now : Nat) : VideoJob :=
  { id := jid, job_id := jid, operation_id := data.operationId,
    user_id := data.userId.getD "anonymous", prompt := data.prompt.getD "",
    model := data.model.getD "veo-3.1-fast-generate-preview",
    mode := data.mode.getD "text", status := data.status.getD "pending",
    progress := data.progress.getD 0, error := data.error,
    details := data.details, video_url := data.videoUrl,
    video_data := data.videoData, media_id := data.mediaId,
    created_at := now, updated_at := now, completed_at := none }

/-! ## Shared lemmas -/

/-- The `find?` commutes with a `map` whose function preserves the predicate. -/
theorem find?_map_preserve {α : Type} (f : α → α) (p : α → Bool)
    (hf : ∀ x, p (f x) = p x) (l : List α) :
    (l.map f).find? p = (l.find? p).map f := by
  rw [List.find?_map]
  have hpf : p ∘ f = p := funext hf
  rw [hpf]

/-- Specialisation to the `user_quotas` key lookup: any per-row update that
keeps `user_id` and `generation_type` commutes with `getQuota`. -/
theorem find?_quota_map (rows : List Quota) (uid cat : String)
    (f : Quota → Quota)
    (hf : ∀ q, (f q).user_id = q.user_id ∧
      (f q).generation_type = q.generation_type) :
    (rows.map f).find? (fun q => q.user_id == uid && q.generation_type == cat)
      = (rows.find?
          (fun q => q.user_id == uid && q.generation_type == cat)).map f := by
  apply find?_map_preserve
  intro x
  rcases hf x with ⟨h1, h2⟩
  simp [h1, h2]

/-- The `check_quota` with no quota row present returns `(True, None)`. -/
theorem checkQuota_of_none (db : QuotaDB) (uid cat : String) (now : Nat)
    (h : getQuota db uid cat = none) :
    checkQuota db uid cat now = ⟨db, true, none⟩ := by
  unfold checkQuota
  rw [h]

/-- One `increment_quota` on an existing non-`unlimited` row bumps exactly
the counter of that row as seen through `getQuota`. -/
theorem getQuota_increment (db : QuotaDB) (uid cat : String) (now : Nat)
    (q : Quota) (h : getQuota db uid cat = some q)
    (ht : q.quota_type ≠ "unlimited") :
    getQuota (incrementQuota db uid cat now) uid cat
      = some { q with quota_used := q.quota_used + 1 } := by
  have hb : (q.quota_type == "unlimited") = false := beq_eq_false_iff_ne.mpr ht
  unfold incrementQuota
  rw [h]
  simp only [hb, Bool.false_eq_true, if_false]
  unfold getQuota at h ⊢
  simp only
  rw [find?_quota_map]
  · rw [h]
    simp
  · intro r
    by_cases hr : (r.qid == q.qid) = true <;> simp [hr]

/-- The `increment_quota` iterated `n` times on an existing non-`unlimited`
row adds `n` to its counter. -/
theorem getQuota_incrementIter (db : QuotaDB) (uid cat : String) (now : Nat)
    (q : Quota) (h : getQuota db uid cat = some q)
    (ht : q.quota_type ≠ "unlimited") (n : Nat) :
    getQuota (incrementIter db uid cat now n) uid cat
      = some { q with quota_used := q.quota_used + n } := by
  induction n with
  | zero => simpa [incrementIter] using h
  | succ n ih =>
    unfold incrementIter
    rw [getQuota_increment _ _ _ _ _ ih ht]
    simp [Nat.add_assoc]

/-- The `check_quota` on a row with a limit, no reset timestamp and a
non-`unlimited` type passes exactly when `used < limit`. -/
theorem checkQuota_allowed_of_limited (db : QuotaDB) (uid cat : String)
    (now : Nat) (q : Quota) (lim : Int)
    (h : getQuota db uid cat = some q) (ht : q.quota_type ≠ "unlimited")
    (hr : q.quota_reset_at = none) (hl : q.quota_limit = some lim) :
    (checkQuota db uid cat now).allowed = true ↔ (q.quota_used : Int) < lim := by
  have hb : (q.quota_type == "unlimited") = false := beq_eq_false_iff_ne.mpr ht
  unfold checkQuota
  rw [h]
  simp only [hb, Bool.false_eq_true, if_false, hr, hl]
  by_cases hle : lim ≤ (q.quota_used : Int)
  · simp [hle]
  · simp [hle]
    omega

/-- C1: for a quota row tagged `limited` with limit `L` (such a tag yields
no reset timestamp), `check_quota` allows exactly when `used < L`;
starting from `used = 0`, after `L` increments the check denies, after
`L - 1` it still allows, and with `L = 0` it denies from the start. -/
theorem quota_limited_check_exhaustion
    (db : QuotaDB) (uid cat : String) (now : Nat) (q : Quota) (L : Nat)
    (h : getQuota db uid cat = some q)
    (htype : q.quota_type = "limited")
    (hlim : q.quota_limit = some (L : Int))
    (hreset : q.quota_reset_at = none) :
    ((checkQuota db uid cat now).allowed = true ↔ q.quota_used < L)
    ∧ (q.quota_used = 0 →
        (checkQuota (incrementIter db uid cat now L) uid cat now).allowed
          = false
        ∧ (1 ≤ L →
            (checkQuota (incrementIter db uid cat now (L - 1)) uid cat
              now).allowed = true)
        ∧ (L = 0 → (checkQuota db uid cat now).allowed = false)) := by
  have ht : q.quota_type ≠ "unlimited" := by
    rw [htype]
    decide
  have hiff := checkQuota_allowed_of_limited db uid cat now q L h ht hreset hlim
  constructor
  · rw [hiff]
    exact Int.ofNat_lt
  · intro hused
    have hL := getQuota_incrementIter db uid cat now q h ht L
    have hL1 := getQuota_incrementIter db uid cat now q h ht (L - 1)
    refine ⟨?_, ?_, ?_⟩
    · have hiffL := checkQuota_allowed_of_limited _ uid cat now _ L hL ht
        hreset hlim
      rw [Bool.eq_false_iff]
      intro htrue
      rw [hiffL] at htrue
      push_cast at htrue
      omega
    · intro hL1pos
      have hiffL1 := checkQuota_allowed_of_limited _ uid cat now _ L hL1 ht
        hreset hlim
      rw [hiffL1]
      push_cast
      omega
    · intro h0
      rw [Bool.eq_false_iff]
      intro htrue
      rw [hiff] at htrue
      omega

/-- Witness for C1 at a concrete `limited/2` quota table. -/
theorem quota_limited_check_exhaustion_witness :
    (getQuota exQuotaDB "u" "image" = some exQuotaRow
     ∧ exQuotaRow.quota_type = "limited"
     ∧ exQuotaRow.quota_limit = some ((2 : Nat) : Int)
     ∧ exQuotaRow.quota_reset_at = none)
    ∧ (((checkQuota exQuotaDB "u" "image" 0).allowed = true
          ↔ exQuotaRow.quota_used < 2)
       ∧ (exQuotaRow.quota_used = 0 →
           (checkQuota (incrementIter exQuotaDB "u" "image" 0 2) "u" "image"
             0).allowed = false
           ∧ (1 ≤ 2 →
               (checkQuota (incrementIter exQuotaDB "u" "image" 0 (2 - 1)) "u"
                 "image" 0).allowed = true)
           ∧ (2 = 0 → (checkQuota exQuotaDB "u" "image" 0).allowed = false))) :=
  ⟨⟨by decide, by decide, by decide, by decide⟩,
   quota_limited_check_exhaustion exQuotaDB "u" "image" 0 exQuotaRow 2
     (by decide) (by decide) (by decide) (by decide)⟩

/-- C8: with no quota row in the store, `check_quota` returns allowed with
no reason string (missing is treated as unlimited), not a "not
configured" denial. -/
theorem check_missing_quota_allowed (db : QuotaDB) (uid cat : String)
    (now : Nat) (h : getQuota db uid cat = none) :
    (checkQuota db uid cat now).allowed = true
    ∧ (checkQuota db uid cat now).reason = none := by
  rw [checkQuota_of_none db uid cat now h]
  exact ⟨rfl, rfl⟩

/-- Witness for C8 at the empty quota table. -/
theorem check_missing_quota_allowed_witness :
    getQuota exEmptyQuotaDB "u" "image" = none
    ∧ ((checkQuota exEmptyQuotaDB "u" "image" 0).allowed = true
       ∧ (checkQuota exEmptyQuotaDB "u" "image" 0).reason = none) :=
  ⟨by decide, check_missing_quota_allowed exEmptyQuotaDB "u" "image" 0
    (by decide)⟩

/-- The row freshly inserted by `create_quota` is what `get_quota` then
returns, when no row for the key existed before. -/
theorem getQuota_create_of_missing (db : QuotaDB) (uid cat qtype : String)
    (ql : Option Int) (now : Nat) (h : getQuota db uid cat = none) :
    getQuota (createQuota db uid cat qtype ql now) uid cat
      = some { qid := db.nextId, user_id := uid, generation_type := cat,
               quota_type := qtype, quota_limit := ql, quota_used := 0,
               quota_reset_at := calcResetTime qtype now } := by
  unfold getQuota at h ⊢
  unfold createQuota
  simp only
  rw [List.find?_append, h]
  simp

/-- The non-raising behaviour of `increment_quota` on a missing row:
provision the default, then charge 1 unless the default is unlimited. -/
theorem getQuota_increment_of_missing (db : QuotaDB) (uid cat : String)
    (now : Nat) (h : getQuota db uid cat = none) :
    getQuota (incrementQuota db uid cat now) uid cat
      = some { qid := db.nextId, user_id := uid, generation_type := cat,
               quota_type := (defaultQuota cat).1,
               quota_limit := (defaultQuota cat).2,
               quota_used :=
                 if (defaultQuota cat).1 = "unlimited" then 0 else 1,
               quota_reset_at := calcResetTime (defaultQuota cat).1 now } := by
  have hg2 := getQuota_create_of_missing db uid cat (defaultQuota cat).1
    (defaultQuota cat).2 now h
  unfold incrementQuota
  rw [h]
  simp only
  rw [hg2]
  by_cases hu : (defaultQuota cat).1 = "unlimited"
  · have hb : ((defaultQuota cat).1 == "unlimited") = true := by
      simp [hu]
    simp only [hb, if_true]
    rw [hg2]
    simp [hu]
  · have hb : ((defaultQuota cat).1 == "unlimited") = false :=
      beq_eq_false_iff_ne.mpr hu
    simp only [hb, Bool.false_eq_true, if_false]
    unfold getQuota
    simp only
    rw [find?_quota_map]
    · unfold getQuota at hg2
      rw [hg2]
      simp [hu]
    · intro r
      by_cases hr : (r.qid == db.nextId) = true <;> simp [hr]

/-- Every default quota type passes the `quota_type` CHECK. -/
theorem quotaTypeAllowed_default (cat : String) :
    quotaTypeAllowed (defaultQuota cat).1 = true := by
  unfold defaultQuota quotaTypeAllowed
  split_ifs <;> decide

/-- When a missing row's category passes the schema CHECK, the checked
increment succeeds and behaves as `incrementQuota`. -/
theorem incrementQuotaE_ok_of_missing (db : QuotaDB) (uid cat : String)
    (now : Nat) (h : getQuota db uid cat = none)
    (hallow : generationTypeAllowed cat = true) :
    incrementQuotaE db uid cat now
      = Except.ok (incrementQuota db uid cat now) := by
  unfold incrementQuotaE incrementQuota createQuotaE
  rw [h]
  simp only [hallow, quotaTypeAllowed_default, Bool.and_self, if_true]
  cases hq : getQuota (createQuota db uid cat (defaultQuota cat).1
      (defaultQuota cat).2 now) uid cat with
  | none => rfl
  | some q =>
    by_cases hu : (q.quota_type == "unlimited") = true
    · simp [hu]
    · simp [hu]

/-- When a missing row's category violates the `generation_type` CHECK,
the provisioning INSERT raises and the checked increment propagates the
`IntegrityError`. -/
theorem incrementQuotaE_error_of_missing (db : QuotaDB) (uid cat : String)
    (now : Nat) (h : getQuota db uid cat = none)
    (hallow : generationTypeAllowed cat = false) :
    incrementQuotaE db uid cat now
      = Except.error PyError.integrityError := by
  unfold incrementQuotaE createQuotaE
  rw [h]
  simp [hallow]

/-- On an existing row no INSERT happens, so the checked increment never
raises and agrees with `incrementQuota`. -/
theorem incrementQuotaE_of_existing (db : QuotaDB) (uid cat : String)
    (now : Nat) (q : Quota) (h : getQuota db uid cat = some q) :
    incrementQuotaE db uid cat now
      = Except.ok (incrementQuota db uid cat now) := by
  unfold incrementQuotaE incrementQuota
  rw [h]
  by_cases hu : (q.quota_type == "unlimited") = true
  · simp [hu]
  · simp [hu]

/-- C10 counterexample: the first increment in category `edit` does not
provision the daily/30 default that `DEFAULT_QUOTAS` names — the INSERT
violates the schema CHECK `generation_type IN ('image','video','text')`
(migration 7) and raises `IntegrityError`, leaving the table without any
row; the same happens for every category outside that set. -/
theorem increment_edit_counterexample :
    getQuota exEmptyQuotaDB "u" "edit" = none
    ∧ defaultQuota "edit" = ("daily", some 30)
    ∧ incrementQuotaE exEmptyQuotaDB "u" "edit" 0
      = Except.error PyError.integrityError := by
  refine ⟨by decide, by decide, by decide⟩

/-- C10 (amended): for a user/category with no quota row, the first
`increment_quota` provisions the built-in default and charges it only for
the categories the `user_quotas` schema admits — image: daily/50 then
used = 1, video: daily/10 then used = 1, text: the unlimited/null
fallback with no charge; for `edit` (despite its daily/30 entry in
`DEFAULT_QUOTAS`) and for any other category outside {image, video,
text}, the provisioning INSERT violates the schema CHECK constraint and
raises `IntegrityError`, provisioning and charging nothing. -/
theorem increment_missing_provisions_checked
    (db : QuotaDB) (uid cat : String) (now : Nat)
    (h : getQuota db uid cat = none) :
    (generationTypeAllowed cat = false →
      incrementQuotaE db uid cat now = Except.error PyError.integrityError)
    ∧ (generationTypeAllowed cat = true →
        incrementQuotaE db uid cat now
          = Except.ok (incrementQuota db uid cat now)
        ∧ getQuota (incrementQuota db uid cat now) uid cat
          = some { qid := db.nextId, user_id := uid, generation_type := cat,
                   quota_type := (defaultQuota cat).1,
                   quota_limit := (defaultQuota cat).2,
                   quota_used :=
                     if (defaultQuota cat).1 = "unlimited" then 0 else 1,
                   quota_reset_at :=
                     calcResetTime (defaultQuota cat).1 now })
    ∧ generationTypeAllowed "edit" = false
    ∧ defaultQuota "image" = ("daily", some 50)
    ∧ defaultQuota "video" = ("daily", some 10)
    ∧ defaultQuota "text" = ("unlimited", none)
    ∧ (cat ≠ "image" → cat ≠ "video" → cat ≠ "edit" →
        defaultQuota cat = ("unlimited", none)) := by
  refine ⟨fun hallow => incrementQuotaE_error_of_missing db uid cat now h
      hallow,
    fun hallow => ⟨incrementQuotaE_ok_of_missing db uid cat now h hallow,
      getQuota_increment_of_missing db uid cat now h⟩,
    by decide, by decide, by decide, by decide, ?_⟩
  intro h1 h2 h3
  simp [defaultQuota, h1, h2, h3]

/-- Witness for the amended C10: the first increment in category `image`
for a user with no rows provisions daily/50 and charges 1. -/
theorem increment_missing_provisions_checked_witness :
    getQuota exEmptyQuotaDB "u" "image" = none
    ∧ ((generationTypeAllowed "image" = false →
         incrementQuotaE exEmptyQuotaDB "u" "image" 0
           = Except.error PyError.integrityError)
       ∧ (generationTypeAllowed "image" = true →
           incrementQuotaE exEmptyQuotaDB "u" "image" 0
             = Except.ok (incrementQuota exEmptyQuotaDB "u" "image" 0)
           ∧ getQuota (incrementQuota exEmptyQuotaDB "u" "image" 0) "u"
               "image"
             = some { qid := 0, user_id := "u", generation_type := "image",
                      quota_type := (defaultQuota "image").1,
                      quota_limit := (defaultQuota "image").2,
                      quota_used :=
                        if (defaultQuota "image").1 = "unlimited" then 0
                        else 1,
                      quota_reset_at :=
                        calcResetTime (defaultQuota "image").1 0 })
       ∧ generationTypeAllowed "edit" = false
       ∧ defaultQuota "image" = ("daily", some 50)
       ∧ defaultQuota "video" = ("daily", some 10)
       ∧ defaultQuota "text" = ("unlimited", none)
       ∧ ("image" ≠ "image" → "image" ≠ "video" → "image" ≠ "edit" →
           defaultQuota "image" = ("unlimited", none))) :=
  ⟨by decide, increment_missing_provisions_checked exEmptyQuotaDB "u"
    "image" 0 (by decide)⟩

/-- The `update_quota` on an existing row with a quota type supplied: the type
and its recomputed reset time are applied; the limit is applied only when
one was supplied and is otherwise left untouched. -/
theorem getQuota_update_some (db : QuotaDB) (uid cat : String) (now : Nat)
    (q : Quota) (qt : String) (ql : Option Int)
    (h : getQuota db uid cat = some q) :
    (updateQuota db uid cat (some qt) ql now).quota
      = some { q with
          quota_type := qt,
          quota_reset_at := calcResetTime qt now,
          quota_limit := match ql with
            | some l => some l
            | none => q.quota_limit } := by
  unfold updateQuota
  rw [h]
  simp only [Option.isNone_some, Bool.false_and, Bool.false_eq_true, if_false]
  unfold getQuota at h ⊢
  simp only
  rw [find?_quota_map]
  · rw [h]
    cases ql <;> simp
  · intro r
    cases ql <;> by_cases hr : (r.qid == q.qid) = true <;> simp [hr]

/-- The state returned by `update_quota` on an existing row with a type
supplied is the state its returned quota was read from. -/
theorem updateQuota_quota_eq_get (db : QuotaDB) (uid cat : String)
    (now : Nat) (q : Quota) (qt : String) (ql : Option Int)
    (h : getQuota db uid cat = some q) :
    (updateQuota db uid cat (some qt) ql now).quota
      = getQuota (updateQuota db uid cat (some qt) ql now).db uid cat := by
  unfold updateQuota
  rw [h]
  simp only [Option.isNone_some, Bool.false_and, Bool.false_eq_true, if_false]

/-- C2 counterexample: on a `daily/5` row with 3 used, switching the
policy to `unlimited` leaves the limit column at 5 instead of clearing it
to null, and switching to `limited` succeeds both with no limit supplied
and with a negative one. -/
theorem update_quota_counterexample :
    (updateQuota exDailyDB "u" "image" (some "unlimited") none 0).quota
      = some ⟨0, "u", "image", "unlimited", some 5, 3, none⟩
    ∧ (updateQuota exDailyDB "u" "image" (some "limited") none 0).quota
      = some ⟨0, "u", "image", "limited", some 5, 3, none⟩
    ∧ (updateQuota exDailyDB "u" "image" (some "limited") (some (-3)) 0).quota
      = some ⟨0, "u", "image", "limited", some (-3), 3, none⟩ := by
  decide

/-- C2 (amended): for an existing row, `update_quota` with policy
`unlimited` sets the policy tag and clears the reset timestamp but leaves
the limit column unchanged (`check_quota` then allows via the tag alone,
ignoring the stale limit); `update_quota` with policy `limited` performs
no validation of the limit: it succeeds with the limit absent (keeping
the old value) and with any supplied limit, including a negative one. -/
theorem update_quota_policy_switch (db : QuotaDB) (uid cat : String)
    (now : Nat) (q : Quota) (lim : Int)
    (h : getQuota db uid cat = some q) :
    (updateQuota db uid cat (some "unlimited") none now).quota
      = some { q with quota_type := "unlimited", quota_reset_at := none }
    ∧ (checkQuota (updateQuota db uid cat (some "unlimited") none now).db
        uid cat now).allowed = true
    ∧ (updateQuota db uid cat (some "limited") none now).quota
      = some { q with quota_type := "limited", quota_reset_at := none }
    ∧ (updateQuota db uid cat (some "limited") (some lim) now).quota
      = some { q with
          quota_type := "limited",
          quota_limit := some lim,
          quota_reset_at := none } := by
  have hcr1 : calcResetTime "unlimited" now = none := rfl
  have hcr2 : calcResetTime "limited" now = none := rfl
  have h1 := getQuota_update_some db uid cat now q "unlimited" none h
  have h2 := getQuota_update_some db uid cat now q "limited" none h
  have h3 := getQuota_update_some db uid cat now q "limited" (some lim) h
  rw [hcr1] at h1
  rw [hcr2] at h2 h3
  refine ⟨h1, ?_, h2, h3⟩
  have hdq := updateQuota_quota_eq_get db uid cat now q "unlimited" none h
  rw [hdq] at h1
  unfold checkQuota
  rw [h1]
  simp

/-- Witness for the amended C2 at the concrete `daily/5` row. -/
theorem update_quota_policy_switch_witness :
    getQuota exDailyDB "u" "image" = some exDailyRow
    ∧ ((updateQuota exDailyDB "u" "image" (some "unlimited") none 7).quota
        = some { exDailyRow with
            quota_type := "unlimited",
            quota_reset_at := none }
       ∧ (checkQuota (updateQuota exDailyDB "u" "image" (some "unlimited")
            none 7).db "u" "image" 7).allowed = true
       ∧ (updateQuota exDailyDB "u" "image" (some "limited") none 7).quota
        = some { exDailyRow with
            quota_type := "limited",
            quota_reset_at := none }
       ∧ (updateQuota exDailyDB "u" "image" (some "limited")
            (some (-3)) 7).quota
        = some { exDailyRow with
            quota_type := "limited",
            quota_limit := some (-3),
            quota_reset_at := none }) :=
  ⟨by decide, update_quota_policy_switch exDailyDB "u" "image" 7 exDailyRow
    (-3) (by decide)⟩

/-- The raise in `_row_to_metadata` propagates out of `get_media` on
every existing row, before the file-existence check. -/
theorem getMedia_error_of_found (st : MediaStore) (mid : Nat)
    (row : MediaMeta)
    (hrow : st.rows.find? (fun r => r.mid == mid) = some row) :
    getMedia st mid = Except.error PyError.attributeError := by
  unfold getMedia
  rw [hrow]
  rfl

/-- C6: the claim (and the spec) say a metadata row whose backing file is
absent is reported as not-found, never as a hard error, and
`get_media`'s own tail implements exactly that (`if not
file_path.exists(): ... return None`); but the `_row_to_metadata` call
before it raises `AttributeError` (`sqlite3.Row` has no `.get`,
media_storage.py line 51), so the orphan case is a hard 500, not a
not-found.  Evaluated at the failing input: a store holding one metadata
row with no backing file. -/
theorem get_media_orphan_crashes :
    exOrphanStore.rows.find? (fun r => r.mid == 0) = some exMediaRowX
    ∧ lookupFile exOrphanStore.files
        (mediaPath exMediaRowX.mtype exMediaRowX.filename) = none
    ∧ getMedia exOrphanStore 0 = Except.error PyError.attributeError
    ∧ routerGetMedia exOrphanStore exRel exAdmin 0
      = ApiResult.internalError := by
  refine ⟨by decide, by decide, by decide, by decide⟩

/-- C3: the claim says `save` then `get` on the returned id yields the
byte-identical payload and the supplied metadata; `save_media` does
insert exactly that row and write exactly those bytes, but `get_media`
raises `AttributeError` in `_row_to_metadata` on the row it just found,
so the read-back never happens.  Evaluated at the failing input: a save
of an image with full metadata into the empty store, followed by a get
of the returned id. -/
theorem save_get_roundtrip_crashes :
    getMedia (saveMedia exDecode emptyMediaStore "image" "b64"
        exSaveMetaFull 5).1
      (saveMedia exDecode emptyMediaStore "image" "b64" exSaveMetaFull 5).2
      = Except.error PyError.attributeError
    ∧ lookupFile (saveMedia exDecode emptyMediaStore "image" "b64"
        exSaveMetaFull 5).1.files (mediaPath "image" "0.png")
      = some (exDecode "b64") := by
  refine ⟨by decide, by decide⟩

/-- C4: the ownership check itself (`can_admin_manage_user` plus the
endpoint branching) implements exactly the claimed policy — admin `a`
passes on managed `x`, fails on unmanaged `y`, non-admins only on their
own media, and managed users appear in the admin's listing scope — but
the get/delete endpoints call `storage.get_media` first, which raises
`AttributeError` on any existing row, so every such request is an
internal error (HTTP 500) and neither the success for X's media nor the
PermissionDenied for Y's media is ever reached.  Evaluated at the
failing input: admin `a` managing `x`, media 0 owned by `x`, media 1
owned by unmanaged `y`. -/
theorem delegation_check_unreachable :
    mediaAccessAllowed exRel exAdmin "x" = true
    ∧ "x" ∈ adminManagedIds exRel exAdmin.id
    ∧ mediaAccessAllowed exRel exAdmin "y" = false
    ∧ mediaAccessAllowed exRel exUserX "x" = true
    ∧ mediaAccessAllowed exRel exUserX "y" = false
    ∧ routerGetMedia exStoreXY exRel exAdmin 0 = ApiResult.internalError
    ∧ routerGetMedia exStoreXY exRel exAdmin 1 = ApiResult.internalError
    ∧ (routerDeleteMedia exStoreXY exRel exAdmin 0).2
      = ApiResult.internalError := by
  refine ⟨by decide, by decide, by decide, by decide, by decide, by decide,
    by decide, by decide⟩

/-- C5: the claim presupposes a successful first delete; in the code no
delete of an existing row ever succeeds — the endpoint's own `get_media`
(and `delete_media` itself) raise `AttributeError` in
`_row_to_metadata`, so the first delete is already an internal error
(HTTP 500) with the store unchanged, and the claimed
second-delete-NotFound scenario is unreachable.  Deleting an id with no
row still reports NotFound.  Evaluated at the failing input: the
two-item store, deleting existing media 0 (and absent id 99). -/
theorem delete_media_never_succeeds :
    routerDeleteMedia exStoreXY exRel exAdmin 0
      = (exStoreXY, ApiResult.internalError)
    ∧ deleteMedia exStoreXY 0 = Except.error PyError.attributeError
    ∧ routerDeleteMedia exStoreXY exRel exAdmin 99
      = (exStoreXY, ApiResult.notFound) := by
  refine ⟨by decide, by decide, by decide⟩

/-- The `find?` over a filtered prefix (none of whose source elements match)
followed by a matching singleton yields the singleton. -/
theorem find?_filter_append_singleton {α : Type} (l : List α)
    (q p : α → Bool) (a : α) (hnone : ∀ x ∈ l, p x = false)
    (hp : p a = true) :
    ((l.filter q) ++ [a]).find? p = some a := by
  rw [List.find?_append]
  have h1 : (l.filter q).find? p = none := by
    rw [List.find?_eq_none]
    intro x hx
    simp [hnone x (List.mem_filter.mp hx).1]
  rw [h1]
  simp [List.find?_cons, hp]

/-- The SET clauses of `update_job` never touch the primary key. -/
theorem applyJobUpdates_id (u : JobUpdates) (now : Nat) (r : VideoJob) :
    (applyJobUpdates u now r).id = r.id := by
  unfold applyJobUpdates
  dsimp only
  split
  · rfl
  · split <;> rfl

/-- C7: `create_job` with an external job id stores one row reachable by
`get_job` under both the external id and the internal id of the returned
job (the three-way alias lookup), and `update_job` through the external
id with status `completed` stamps a completion timestamp on that row. -/
theorem video_job_alias_and_completion
    (jobs : List VideoJob) (data : CreateJobData) (freshId : String)
    (now now2 : Nat) (jid : String)
    (hjid : data.jobId = some jid) (hjne : jid ≠ "") (hid : data.id = none)
    (hfresh : ∀ r ∈ jobs,
      r.id ≠ jid ∧ r.job_id ≠ jid ∧ r.operation_id ≠ some jid) :
    (createJob jobs data freshId now).2.id = jid
    ∧ getJob (createJob jobs data freshId now).1 jid
        = some (createJob jobs data freshId now).2
    ∧ getJob (createJob jobs data freshId now).1
        ((createJob jobs data freshId now).2.id)
        = some (createJob jobs data freshId now).2
    ∧ ((updateJob (createJob jobs data freshId now).1 jid
          { emptyJobUpdates with status := some "completed" } now2).2).map
        (fun j => j.completed_at) = some (some now2) := by
  have hcj : createJob jobs data freshId now
      = (jobs.filter (fun r => !(r.id == jid)) ++ [createdRow data jid now],
         createdRow data jid now) := by
    unfold createJob createdRow
    rw [hjid, hid]
    simp [strTruthy, hjne, rowToJob]
  have hresolve : resolveJobId
      (jobs.filter (fun r => !(r.id == jid)) ++ [createdRow data jid now])
      jid = some jid := by
    unfold resolveJobId
    rw [find?_filter_append_singleton]
    · rfl
    · intro r hr
      obtain ⟨h1, h2, h3⟩ := hfresh r hr
      simp [h1, h2, h3]
    · simp [createdRow]
  have hfind2 : (jobs.filter (fun r => !(r.id == jid)) ++
      [createdRow data jid now]).find? (fun r => r.id == jid)
      = some (createdRow data jid now) := by
    apply find?_filter_append_singleton
    · intro r hr
      simp [(hfresh r hr).1]
    · simp [createdRow]
  have hrowToJob : rowToJob (createdRow data jid now)
      = createdRow data jid now := by
    unfold rowToJob createdRow
    simp [hjne]
  have hget : getJob
      (jobs.filter (fun r => !(r.id == jid)) ++ [createdRow data jid now])
      jid = some (createdRow data jid now) := by
    unfold getJob
    rw [hresolve]
    simp only
    rw [hfind2]
    simp [hrowToJob]
  refine ⟨by rw [hcj]; rfl, ?_, ?_, ?_⟩
  · rw [hcj]
    exact hget
  · rw [hcj]
    exact hget
  · rw [hcj]
    simp only
    unfold updateJob
    rw [hresolve]
    have hne : jobUpdatesEmpty
        { emptyJobUpdates with status := some "completed" } = false := rfl
    rw [hne]
    simp only [Bool.false_eq_true, if_false]
    rw [find?_map_preserve]
    · rw [hfind2]
      have hbeq : ((createdRow data jid now).id == jid) = true := by
        simp [createdRow]
      simp only [Option.map_map, Option.map_some, Function.comp, hbeq,
        if_true]
      have hca : (applyJobUpdates
          { emptyJobUpdates with status := some "completed" } now2
          (createdRow data jid now)).completed_at = some now2 := by
        unfold applyJobUpdates
        simp
      simp [rowToJob, hca]
      have hcond : (createdRow data jid now).id = jid := rfl
      rw [if_pos hcond]
      exact hca
    · intro x
      by_cases hx : (x.id == jid) = true
      · simp [hx, applyJobUpdates_id]
      · simp [hx, applyJobUpdates_id]

/-- Witness for C7: creating `op-123` in an empty table, looking it up by
both aliases, and completing it. -/
theorem video_job_alias_and_completion_witness :
    (exJobData.jobId = some "op-123" ∧ "op-123" ≠ ""
     ∧ exJobData.id = none
     ∧ (∀ r ∈ ([] : List VideoJob),
         r.id ≠ "op-123" ∧ r.job_id ≠ "op-123"
         ∧ r.operation_id ≠ some "op-123"))
    ∧ ((createJob [] exJobData "fresh" 1).2.id = "op-123"
       ∧ getJob (createJob [] exJobData "fresh" 1).1 "op-123"
          = some (createJob [] exJobData "fresh" 1).2
       ∧ getJob (createJob [] exJobData "fresh" 1).1
          ((createJob [] exJobData "fresh" 1).2.id)
          = some (createJob [] exJobData "fresh" 1).2
       ∧ ((updateJob (createJob [] exJobData "fresh" 1).1 "op-123"
            { emptyJobUpdates with status := some "completed" } 9).2).map
          (fun j => j.completed_at) = some (some 9)) :=
  ⟨⟨rfl, by decide, rfl, by simp⟩,
   video_job_alias_and_completion [] exJobData "fresh" 1 9 "op-123" rfl
     (by decide) rfl (by simp)⟩

/-- Splitting a list into `n` consecutive chunks of size `k` and
concatenating them gives the list back, as soon as `n` chunks cover it. -/
theorem flatten_chunks {α : Type} (k : Nat) :
    ∀ (n : Nat) (l : List α), l.length ≤ n * k →
      ((List.range n).map (fun i => (l.drop (i * k)).take k)).flatten = l := by
  intro n
  induction n with
  | zero =>
    intro l hl
    have hnil : l = [] := by
      apply List.eq_nil_of_length_eq_zero
      omega
    subst hnil
    simp
  | succ n ih =>
    intro l hl
    rw [List.range_succ_eq_map]
    simp only [List.map_cons, List.map_map, List.flatten_cons]
    have h0 : (l.drop (0 * k)).take k = l.take k := by simp
    rw [h0]
    have hmap : ∀ i ∈ List.range n,
        ((fun i => (l.drop (i * k)).take k) ∘ Nat.succ) i
          = ((l.drop k).drop (i * k)).take k := by
      intro i _
      simp only [Function.comp]
      rw [List.drop_drop]
      have hix : Nat.succ i * k = k + i * k := by
        rw [Nat.succ_mul, Nat.add_comm]
      rw [hix]
    rw [List.map_congr_left hmap]
    rw [ih (l.drop k) ?_]
    · exact List.take_append_drop k l
    · rw [List.length_drop]
      have hs : (n + 1) * k = n * k + k := Nat.succ_mul n k
      rw [hs] at hl
      generalize n * k = A at hl ⊢
      omega

/-- A length is covered by `ceil(length / k)` chunks of size `k`. -/
theorem le_ceil_mul (len k : Nat) (hk : 0 < k) :
    len ≤ ((len + k - 1) / k) * k := by
  rcases Nat.eq_zero_or_pos len with h0 | h1
  · subst h0
    simp
  · have he : len + k - 1 = (len - 1) + k := by omega
    rw [he, Nat.add_div_right _ hk]
    have h2 : (len - 1) / k < (len - 1) / k + 1 := Nat.lt_succ_self _
    have h3 : len - 1 < ((len - 1) / k + 1) * k :=
      (Nat.div_lt_iff_lt_mul hk).mp h2
    generalize ((len - 1) / k + 1) * k = A at h3 ⊢
    omega

/-- C9: `list_media` returns a total count that is the size of the
owner-scoped (and type-filtered) set regardless of page number and page
size; concatenating all pages at a fixed positive page size reproduces
the recency-sorted scoped set exactly, which is a permutation of the
scoped set (each item exactly once); the scope is the delegated users
plus the admin itself for admins, and exactly the caller's own id for
regular users. -/
theorem list_media_pagination
    (rows : List MediaMeta) (rel : AdminRel) (caller : DbUser)
    (t : Option String) (k p k2 : Nat) (hk : 0 < k) :
    (listMediaPage rows rel caller t p k2).2
      = (scopedMedia (listScope rel caller) t rows).length
    ∧ ((List.range
          (((scopedMedia (listScope rel caller) t rows).length + k - 1)
            / k)).map
        (fun i => (listMediaPage rows rel caller t (i + 1) k).1)).flatten
      = sortByCreatedDesc (scopedMedia (listScope rel caller) t rows)
    ∧ (sortByCreatedDesc (scopedMedia (listScope rel caller) t rows)).Perm
        (scopedMedia (listScope rel caller) t rows)
    ∧ (caller.is_admin = true →
        listScope rel caller = adminManagedIds rel caller.id)
    ∧ (caller.is_admin = false → listScope rel caller = [caller.id]) := by
  have hpage : ∀ q m, (listMediaPage rows rel caller t q m).1
        = ((sortByCreatedDesc
            (scopedMedia (listScope rel caller) t rows)).drop
          ((q - 1) * m)).take m
      ∧ (listMediaPage rows rel caller t q m).2
        = (scopedMedia (listScope rel caller) t rows).length := by
    intro q m
    unfold listMediaPage listScope adminListMedia listUserMediaPaged
    cases hadm : caller.is_admin <;> simp [hadm]
  refine ⟨(hpage p k2).2, ?_, ?_, ?_, ?_⟩
  · have hmap : ∀ i ∈ List.range
        (((scopedMedia (listScope rel caller) t rows).length + k - 1) / k),
        (listMediaPage rows rel caller t (i + 1) k).1
          = ((sortByCreatedDesc
              (scopedMedia (listScope rel caller) t rows)).drop
            (i * k)).take k := by
      intro i _
      rw [(hpage (i + 1) k).1]
      simp
    rw [List.map_congr_left hmap]
    apply flatten_chunks k
    have hlen : (sortByCreatedDesc
        (scopedMedia (listScope rel caller) t rows)).length
        = (scopedMedia (listScope rel caller) t rows).length := by
      unfold sortByCreatedDesc
      exact List.length_insertionSort _ _
    rw [hlen]
    exact le_ceil_mul _ k hk
  · exact List.perm_insertionSort _ _
  · intro hadm
    unfold listScope
    rw [hadm]
    simp
  · intro hadm
    unfold listScope
    rw [hadm]
    simp

/-- Witness for C9 at the two-item store: admin `a` sees only the media of
`x` (their delegated user) and their own, in one page of size 1. -/
theorem list_media_pagination_witness :
    0 < 1
    ∧ ((listMediaPage [exMediaRowX, exMediaRowY] exRel exAdmin none 3 5).2
        = (scopedMedia (listScope exRel exAdmin) none
            [exMediaRowX, exMediaRowY]).length
       ∧ ((List.range
            (((scopedMedia (listScope exRel exAdmin) none
                [exMediaRowX, exMediaRowY]).length + 1 - 1) / 1)).map
          (fun i => (listMediaPage [exMediaRowX, exMediaRowY] exRel exAdmin
            none (i + 1) 1).1)).flatten
        = sortByCreatedDesc (scopedMedia (listScope exRel exAdmin) none
            [exMediaRowX, exMediaRowY])
       ∧ (sortByCreatedDesc (scopedMedia (listScope exRel exAdmin) none
            [exMediaRowX, exMediaRowY])).Perm
          (scopedMedia (listScope exRel exAdmin) none
            [exMediaRowX, exMediaRowY])
       ∧ (exAdmin.is_admin = true →
           listScope exRel exAdmin = adminManagedIds exRel exAdmin.id)
       ∧ (exAdmin.is_admin = false →
           listScope exRel exAdmin = [exAdmin.id])) :=
  ⟨by decide,
   list_media_pagination [exMediaRowX, exMediaRowY] exRel exAdmin none 1 3 5
     (by decide)⟩

end GeminiGen
